import Mathlib

/-
  Verification development for the maestro front-end components:
  - NotesTab.tsx   (paginated notes loading, store reconciliation, filter, export)
  - WritingChatPanel (part_000: message sending / regeneration with search options)
  - AgentActivityLog.tsx (log-entry expansion toggling)

  The TypeScript code is shallowly embedded: component state becomes an explicit
  state record, each handler becomes a function from state (and the fetched data,
  or a success flag for the fallible actions) to the new state together with the
  observable effects (whether a request was issued, which toasts were emitted).
  JavaScript truthiness of optional strings and of numbers under the || operator
  is modelled explicitly.
-/

namespace Maestro

/-- A research note as consumed by NotesTab (store `Note` type): identifier,
content, optional source label, optional URL, timestamp, tags. -/
structure Note where
  note_id : String
  content : String
  source : Option String
  url : Option String
  timestamp : String
  tags : List String
deriving DecidableEq

/-- JS truthiness of an optional string: `undefined`, `null` and `""` are falsy. -/
def strTruthy : Option String → Bool
  | none => false
  | some s => !s.isEmpty

/-- JS `o || fallback` on an optional string (empty string is falsy). -/
def jsOrStr (o : Option String) (fallback : String) : String :=
  match o with
  | some s => if s.isEmpty then fallback else s
  | none => fallback

/-- JS String.prototype.trim: strips leading and trailing whitespace
(written on lists of characters so that it evaluates by reduction). -/
def jsTrim (s : String) : String :=
  ⟨((s.data.dropWhile Char.isWhitespace).reverse.dropWhile Char.isWhitespace).reverse⟩

/-- JS `t || fallback` on an optional number: `undefined` and `0` are falsy. -/
def jsOrNat (t : Option Nat) (fallback : Nat) : Nat :=
  match t with
  | some v => if v = 0 then fallback else v
  | none => fallback

/-- The body of a notes-fetch response: either `{ notes, total, has_more }`
or a legacy bare array (then `total` and `has_more` are absent). -/
structure FetchData where
  notes : List Note
  total : Option Nat
  has_more : Option Bool
deriving DecidableEq

/-- A toast notification as passed to addToast. -/
structure Toast where
  type : String
  title : String
  message : String
  duration : Option Nat
deriving DecidableEq

/-- The component state of NotesTab that the claims are about: the useState
hooks (notes, totalNotesCount, hasMoreNotes, isLoading, isLoadingMore,
newNotesCount), the refs (initialLoadDone, previousMissionId), the missionId
prop, and the mirror of setMissionNotes into the store. -/
structure NotesState where
  missionId : String
  notes : List Note
  totalNotesCount : Nat
  hasMoreNotes : Bool
  isLoading : Bool
  isLoadingMore : Bool
  newNotesCount : Nat
  initialLoadDone : Bool
  previousMissionId : Option String
  storeNotes : List Note
deriving DecidableEq

/-- The synchronous prologue of loadInitialNotes: if the mission changed,
reset the done flag, remember the mission, and clear notes and counters. -/
def resetIfMissionChanged (s : NotesState) : NotesState :=
  if s.previousMissionId ≠ some s.missionId then
    { s with initialLoadDone := false
             previousMissionId := some s.missionId
             notes := []
             totalNotesCount := 0
             newNotesCount := 0 }
  else s

/-- loadInitialNotes on a successful fetch of `data` (limit 100, offset 0).
Returns the new state and whether a request was issued. -/
def loadInitialNotes (s : NotesState) (data : FetchData) : NotesState × Bool :=
  let s1 := resetIfMissionChanged s
  if s1.initialLoadDone then (s1, false)
  else
    let newNotes := data.notes
    let total := jsOrNat data.total newNotes.length
    let hasMore := match data.has_more with
      | some b => b
      | none => decide (total > 100)
    ({ s1 with notes := newNotes
               storeNotes := newNotes
               totalNotesCount := total
               hasMoreNotes := hasMore
               initialLoadDone := true
               isLoading := false }, true)

/-- loadInitialNotes when the fetch fails: the catch block only logs, the
finally block clears isLoading. -/
def loadInitialNotesErr (s : NotesState) : NotesState × Bool :=
  let s1 := resetIfMissionChanged s
  if s1.initialLoadDone then (s1, false)
  else ({ s1 with isLoading := false }, true)

/-- loadMoreNotes on a successful fetch of `data` (limit 100, offset notes.length). -/
def loadMoreNotes (s : NotesState) (data : FetchData) : NotesState × Bool :=
  if !s.hasMoreNotes || s.isLoadingMore then (s, false)
  else
    let currentLength := s.notes.length
    let newNotes := data.notes
    let total := jsOrNat data.total (currentLength + newNotes.length)
    let hasMore := match data.has_more with
      | some b => b
      | none => decide (total > currentLength + newNotes.length)
    let updated := s.notes ++ newNotes
    ({ s with notes := updated
              storeNotes := updated
              totalNotesCount := total
              hasMoreNotes := hasMore
              isLoadingMore := false }, true)

/-- loadMoreNotes when the fetch fails. -/
def loadMoreNotesErr (s : NotesState) : NotesState × Bool :=
  if !s.hasMoreNotes || s.isLoadingMore then (s, false)
  else ({ s with isLoadingMore := false }, true)

/-- loadAllNotes on a successful fetch of `data` (limit 999999, offset 0).
Note: its guard checks only hasMoreNotes, not the isLoading busy flag. -/
def loadAllNotes (s : NotesState) (data : FetchData) : NotesState × Bool :=
  if !s.hasMoreNotes then (s, false)
  else
    let allNotes := data.notes
    let total := jsOrNat data.total allNotes.length
    ({ s with notes := allNotes
              storeNotes := allNotes
              totalNotesCount := total
              hasMoreNotes := false
              isLoading := false }, true)

/-- loadAllNotes when the fetch fails. -/
def loadAllNotesErr (s : NotesState) : NotesState × Bool :=
  if !s.hasMoreNotes then (s, false)
  else ({ s with isLoading := false }, true)

/-- The active mission as read from the mission store: id and (possibly
absent) notes array. -/
structure Mission where
  id : String
  notes : Option (List Note)
deriving DecidableEq

/-- The toast emitted for k newly arrived notes:
{ type: info, title: New Research Notes, message: "k new note(s) added" }. -/
def newNotesToast (k : Nat) : Toast :=
  { type := "info"
    title := "New Research Notes"
    message := toString k ++ " new note" ++ (if k > 1 then "s" else "") ++ " added"
    duration := none }

/-- The store-sync useEffect of NotesTab: reconciles the component state with
the store notes of the active mission, preserving state when nothing relevant
changed, and emitting the threshold-gated toast. Returns the new state and
the list of toasts emitted during the reconciliation. -/
def storeSyncEffect (s : NotesState) (activeMission : Option Mission) : NotesState × List Toast :=
  match activeMission with
  | none => (s, [])
  | some m =>
    match m.notes with
    | none => (s, [])
    | some storeNotes =>
      if m.id = s.missionId ∧ s.initialLoadDone then
        if s.previousMissionId = some s.missionId then
          -- getLast? is none exactly when the list is empty, mirroring
          -- notes.length > 0 ? notes[notes.length - 1].note_id : null
          let currentLastNoteId := s.notes.getLast?.map (fun n => n.note_id)
          let storeLastNoteId := storeNotes.getLast?.map (fun n => n.note_id)
          if storeNotes.length ≠ s.notes.length ∨ currentLastNoteId ≠ storeLastNoteId then
            -- Math.max(0, storeNotes.length - notes.length) is Nat truncated subtraction
            let newCount := storeNotes.length - s.notes.length
            let toasts := if newCount ≥ 5 then [newNotesToast newCount] else []
            ({ s with notes := storeNotes, totalNotesCount := storeNotes.length }, toasts)
          else (s, [])
        else
          if storeNotes.length > 0 then
            ({ s with notes := storeNotes, totalNotesCount := storeNotes.length }, [])
          else (s, [])
      else (s, [])

/-- The three note filters selectable in the UI. -/
inductive NoteFilter
  | all
  | web
  | documents
deriving DecidableEq

/-- JS String.prototype.includes, on lists of characters. -/
def strIncludes (s pat : String) : Bool :=
  decide (pat.data <:+: s.data)

/-- The matchesSearch part of the filteredNotes predicate: empty search term
matches everything, otherwise case-insensitive substring match over content,
source (when truthy) and url (when truthy). -/
def noteMatchesSearch (searchTerm : String) (n : Note) : Bool :=
  searchTerm.isEmpty
    || strIncludes n.content.toLower searchTerm.toLower
    || (strTruthy n.source && strIncludes (jsOrStr n.source "").toLower searchTerm.toLower)
    || (strTruthy n.url && strIncludes (jsOrStr n.url "").toLower searchTerm.toLower)

/-- The matchesFilter part of the filteredNotes predicate: all, or web
(truthy url), or documents (truthy source and no truthy url). -/
def noteMatchesFilter (fil : NoteFilter) (n : Note) : Bool :=
  fil = NoteFilter.all
    || (fil = NoteFilter.web && strTruthy n.url)
    || (fil = NoteFilter.documents && strTruthy n.source && !strTruthy n.url)

/-- filteredNotes: notes.filter(matchesSearch && matchesFilter). -/
def filteredNotes (searchTerm : String) (fil : NoteFilter) (ns : List Note) : List Note :=
  ns.filter (fun n => noteMatchesSearch searchTerm n && noteMatchesFilter fil n)

/-- getFilterCount for a given filter over the current state. -/
def getFilterCount (s : NotesState) (fil : NoteFilter) : Nat :=
  match fil with
  | NoteFilter.all => jsOrNat (some s.totalNotesCount) s.notes.length
  | NoteFilter.web => (s.notes.filter (fun n => strTruthy n.url)).length
  | NoteFilter.documents => (s.notes.filter (fun n => strTruthy n.source && !strTruthy n.url)).length

/-- The success toast shown after an export. -/
def exportSuccessToast : Toast :=
  { type := "success"
    title := "Notes Exported"
    message := "Research notes have been exported successfully."
    duration := none }

/-- One serialized note in the export text. `fmt` stands for the external
formatFullDateTime helper (utils/timezone, outside this repository slice). -/
def noteExportEntry (fmt : String → String) (n : Note) : String :=
  let sourceInfo := jsOrStr n.source "Unknown source"
  let urlInfo := jsOrStr n.url ""
  "[" ++ fmt n.timestamp ++ "] (" ++ sourceInfo ++ ")\n"
    ++ n.content ++ "\n"
    ++ (if urlInfo.isEmpty then "" else "URL: " ++ urlInfo)
    ++ "\n---\n"

/-- The observable result of handleExportNotes: the blob text, the download
file name and the emitted toasts. -/
structure ExportResult where
  text : String
  filename : String
  toasts : List Toast
deriving DecidableEq

/-- handleExportNotes: serialize the filtered notes, join with a newline,
offer the blob under mission-notes-(first 8 chars of missionId).txt. -/
def handleExportNotes (fmt : String → String) (missionId searchTerm : String)
    (fil : NoteFilter) (ns : List Note) : ExportResult :=
  let notesText := String.intercalate "\n" ((filteredNotes searchTerm fil ns).map (noteExportEntry fmt))
  { text := notesText
    filename := "mission-notes-" ++ missionId.take 8 ++ ".txt"
    toasts := [exportSuccessToast] }

/-! WritingChatPanel (src/unnamed/part_000) -/

/-- The searchSettings state of WritingChatPanel. -/
structure SearchSettings where
  useWebSearch : Bool
  deepSearch : Bool
  maxIterations : Nat
  maxQueries : Nat
  deepSearchIterations : Nat
  deepSearchQueries : Nat
deriving DecidableEq

/-- The options object passed to sendMessage / regenerateMessage. -/
structure ChatOptions where
  documentGroupId : Option String
  useWebSearch : Bool
  deepSearch : Bool
  maxIterations : Nat
  maxQueries : Nat
deriving DecidableEq

/-- The part of WritingChatPanel state handleSendMessage touches: the input
field text and the loading flag. -/
structure ChatState where
  message : String
  isLoading : Bool
deriving DecidableEq

/-- The toast emitted when sending a message fails. -/
def sendErrorToast : Toast :=
  { type := "error"
    title := "Chat Error"
    message := "Failed to send message. Please try again."
    duration := some 5000 }

/-- The toast emitted when regenerating a response fails. -/
def regenerateErrorToast : Toast :=
  { type := "error"
    title := "Regeneration Error"
    message := "Failed to regenerate response. Please try again."
    duration := some 5000 }

/-- The toast emitted when deleting a message fails. -/
def deleteErrorToast : Toast :=
  { type := "error"
    title := "Delete Failed"
    message := "Failed to delete message. Please try again."
    duration := some 5000 }

/-- handleSendMessage: guard on blank input or loading, trim, clear the input
field, call sendMessage with the search options (deep-search limits substituted
when deepSearch is on); `ok` is whether the awaited send succeeds, the catch
block emits the chat-error toast. Returns (new state, request sent, toasts). -/
def handleSendMessage (st : ChatState) (selectedGroupId : Option String)
    (ss : SearchSettings) (ok : Bool) : ChatState × Option (String × ChatOptions) × List Toast :=
  if (jsTrim st.message).isEmpty || st.isLoading then (st, none, [])
  else
    let userMessage := jsTrim st.message
    let req : String × ChatOptions :=
      (userMessage,
        { documentGroupId := selectedGroupId
          useWebSearch := ss.useWebSearch
          deepSearch := ss.deepSearch
          maxIterations := if ss.deepSearch then ss.deepSearchIterations else ss.maxIterations
          maxQueries := if ss.deepSearch then ss.deepSearchQueries else ss.maxQueries })
    ({ st with message := "" }, some req, if ok then [] else [sendErrorToast])

/-- handleRegenerate: unconditionally calls regenerateMessage with the same
search-option substitution; the catch block emits the regeneration-error toast. -/
def handleRegenerate (messageId : String) (selectedGroupId : Option String)
    (ss : SearchSettings) (ok : Bool) : (String × ChatOptions) × List Toast :=
  ((messageId,
    { documentGroupId := selectedGroupId
      useWebSearch := ss.useWebSearch
      deepSearch := ss.deepSearch
      maxIterations := if ss.deepSearch then ss.deepSearchIterations else ss.maxIterations
      maxQueries := if ss.deepSearch then ss.deepSearchQueries else ss.maxQueries }),
   if ok then [] else [regenerateErrorToast])

/-- The onDelete handler of a MessageBubble: awaits removeMessage, the catch
block emits the delete-failed toast. -/
def handleDeleteMessage (_messageId : String) (ok : Bool) : List Toast :=
  if ok then [] else [deleteErrorToast]

/-! AgentActivityLog.tsx -/

/-- toggleLogExpansion: toggles membership of a log index in the expandedLogs
set (JS Set delete/add on a copy of the previous set). -/
def toggleLogExpansion (expanded : Finset Nat) (index : Nat) : Finset Nat :=
  if index ∈ expanded then expanded.erase index
  else insert index expanded

/-! Helper lemmas about loadInitialNotes -/

theorem loadInitialNotes_done (s : NotesState) (d : FetchData) :
    (loadInitialNotes s d).1.initialLoadDone = true := by
  unfold loadInitialNotes
  by_cases h : (resetIfMissionChanged s).initialLoadDone = true
  · simp [h]
  · simp [h]

theorem resetIfMissionChanged_prev (s : NotesState) :
    (resetIfMissionChanged s).previousMissionId = some (resetIfMissionChanged s).missionId := by
  unfold resetIfMissionChanged
  by_cases h : s.previousMissionId = some s.missionId <;> simp [h]

theorem loadInitialNotes_prev (s : NotesState) (d : FetchData) :
    (loadInitialNotes s d).1.previousMissionId = some (loadInitialNotes s d).1.missionId := by
  unfold loadInitialNotes
  have hp := resetIfMissionChanged_prev s
  by_cases h : (resetIfMissionChanged s).initialLoadDone = true <;> simp [h, hp]

theorem loadInitialNotes_of_done (s : NotesState) (d : FetchData)
    (h1 : s.initialLoadDone = true) (h2 : s.previousMissionId = some s.missionId) :
    loadInitialNotes s d = (s, false) := by
  unfold loadInitialNotes resetIfMissionChanged
  simp [h1, h2]

/-- C2: after any invocation of the initial notes load, every further
invocation of the initial load for the same mission is a no-op: the state is
returned unchanged and no request is issued, whatever data the second
response would have carried (in particular no note is duplicated). -/
theorem loadInitialNotes_repeat_noop (s : NotesState) (d1 d2 : FetchData) :
    loadInitialNotes (loadInitialNotes s d1).1 d2 = ((loadInitialNotes s d1).1, false) :=
  loadInitialNotes_of_done _ _ (loadInitialNotes_done s d1) (loadInitialNotes_prev s d1)

/-- C5: the web filter (truthy url) and the documents filter (truthy source
and no truthy url) are mutually exclusive: no note satisfies both predicates,
and filtering the web-filtered list by the documents predicate is empty. -/
theorem web_documents_filters_disjoint (searchTerm : String) (ns : List Note) :
    (filteredNotes searchTerm NoteFilter.web ns).filter
        (fun n => noteMatchesFilter NoteFilter.documents n) = []
  ∧ ∀ n : Note,
      (noteMatchesFilter NoteFilter.web n && noteMatchesFilter NoteFilter.documents n) = false := by
  constructor
  · rw [List.filter_eq_nil_iff]
    intro n hn
    have h2 := (List.mem_filter.mp hn).2
    simp only [noteMatchesFilter, Bool.and_eq_true] at h2 ⊢
    have hw : strTruthy n.url = true := by
      revert h2
      cases strTruthy n.url <;> simp
    simp [hw]
  · intro n
    simp only [noteMatchesFilter]
    cases strTruthy n.url <;> cases strTruthy n.source <;> simp

/-- C6: exporting serializes exactly the filtered notes, one entry per
filtered note, each entry terminated by the delimiter line, the entries
joined by a newline, and the download is named
mission-notes-(first 8 characters of the mission id).txt. -/
theorem handleExportNotes_entries (fmt : String → String) (missionId searchTerm : String)
    (fil : NoteFilter) (ns : List Note) :
    (handleExportNotes fmt missionId searchTerm fil ns).text
      = String.intercalate "\n" ((filteredNotes searchTerm fil ns).map (noteExportEntry fmt))
  ∧ ((filteredNotes searchTerm fil ns).map (noteExportEntry fmt)).length
      = (filteredNotes searchTerm fil ns).length
  ∧ (∀ n : Note, ∃ body : String, noteExportEntry fmt n = body ++ "\n---\n")
  ∧ (handleExportNotes fmt missionId searchTerm fil ns).filename
      = "mission-notes-" ++ missionId.take 8 ++ ".txt" := by
  refine ⟨rfl, List.length_map _ _, fun n => ⟨_, rfl⟩, rfl⟩

/-- C10: toggling the expansion of the same log index twice restores the
expanded set; a single toggle flips membership of exactly that index and
leaves every other index unchanged. -/
theorem toggleLogExpansion_involutive_frame (s : Finset Nat) (i : Nat) :
    toggleLogExpansion (toggleLogExpansion s i) i = s
  ∧ (i ∈ toggleLogExpansion s i ↔ i ∉ s)
  ∧ ∀ j : Nat, j ≠ i → (j ∈ toggleLogExpansion s i ↔ j ∈ s) := by
  refine ⟨?_, ?_, ?_⟩
  · by_cases h : i ∈ s
    · simp [toggleLogExpansion, h, Finset.insert_erase h]
    · simp [toggleLogExpansion, h, Finset.erase_insert h]
  · by_cases h : i ∈ s <;> simp [toggleLogExpansion, h, Finset.mem_erase]
  · intro j hj
    by_cases h : i ∈ s <;>
      simp [toggleLogExpansion, h, Finset.mem_erase, Finset.mem_insert, hj,
        Ne.symm hj]

/-- Witness for C10 at a concrete set and index. -/
theorem toggleLogExpansion_involutive_frame_witness :
    toggleLogExpansion (toggleLogExpansion ({0, 2} : Finset Nat) 2) 2 = ({0, 2} : Finset Nat)
  ∧ (0 ∈ toggleLogExpansion ({0, 2} : Finset Nat) 2 ↔ 0 ∈ ({0, 2} : Finset Nat)) :=
  ⟨(toggleLogExpansion_involutive_frame {0, 2} 2).1,
   (toggleLogExpansion_involutive_frame {0, 2} 2).2.2 0 (by decide)⟩

/-! Concrete sample values used by closed statements. -/

def sampleNote : Note :=
  { note_id := "n1", content := "c", source := none, url := none, timestamp := "t", tags := [] }

/-- C1 (amended): for a load-more response that is actually processed, when
the response omits has_more the flag becomes false exactly when the updated
client note count reaches the total; when the response supplies has_more
(initial load or load more) the client adopts it verbatim; for an initial
load that omits has_more the flag is set to (total > 100) regardless of the
number of notes fetched. -/
theorem hasMoreNotes_update_semantics (s : NotesState) (d : FetchData) (b : Bool) :
    ((loadMoreNotes s d).2 = true → d.has_more = none →
      ((loadMoreNotes s d).1.hasMoreNotes = false ↔
        (loadMoreNotes s d).1.totalNotesCount ≤ (loadMoreNotes s d).1.notes.length))
  ∧ ((loadMoreNotes s d).2 = true → d.has_more = some b →
      (loadMoreNotes s d).1.hasMoreNotes = b)
  ∧ ((loadInitialNotes s d).2 = true → d.has_more = none →
      (loadInitialNotes s d).1.hasMoreNotes
        = decide ((loadInitialNotes s d).1.totalNotesCount > 100))
  ∧ ((loadInitialNotes s d).2 = true → d.has_more = some b →
      (loadInitialNotes s d).1.hasMoreNotes = b) := by
  refine ⟨?_, ?_, ?_, ?_⟩
  · intro hproc hnone
    by_cases g : (!s.hasMoreNotes || s.isLoadingMore) = true
    · simp [loadMoreNotes, g] at hproc
    · simp only [loadMoreNotes, g, if_false, Bool.false_eq_true, ite_false]
      simp [hnone, List.length_append]
  · intro hproc hb
    by_cases g : (!s.hasMoreNotes || s.isLoadingMore) = true
    · simp [loadMoreNotes, g] at hproc
    · simp [loadMoreNotes, g, hb]
  · intro hproc hnone
    by_cases g : (resetIfMissionChanged s).initialLoadDone = true
    · simp [loadInitialNotes, g] at hproc
    · simp [loadInitialNotes, g, hnone]
  · intro hproc hb
    by_cases g : (resetIfMissionChanged s).initialLoadDone = true
    · simp [loadInitialNotes, g] at hproc
    · simp [loadInitialNotes, g, hb]

def c1State : NotesState :=
  { missionId := "m", notes := [], totalNotesCount := 0, hasMoreNotes := true,
    isLoading := false, isLoadingMore := false, newNotesCount := 0,
    initialLoadDone := false, previousMissionId := some "m", storeNotes := [] }

def c1Data : FetchData := { notes := [sampleNote], total := some 2, has_more := none }

/-- C1 counterexample: an initial-load response of one note with reported
total 2 and no has_more field is processed, leaves the client with fewer
notes than the total, and still sets has_more to false (the fallback compares
the total to the fixed page size 100, not to the note count). -/
theorem hasMoreNotes_iff_counterexample :
    (loadInitialNotes c1State c1Data).2 = true
  ∧ (loadInitialNotes c1State c1Data).1.hasMoreNotes = false
  ∧ (loadInitialNotes c1State c1Data).1.notes.length
      < (loadInitialNotes c1State c1Data).1.totalNotesCount := by decide

def c1wState : NotesState :=
  { missionId := "m", notes := [sampleNote], totalNotesCount := 2, hasMoreNotes := true,
    isLoading := false, isLoadingMore := false, newNotesCount := 0,
    initialLoadDone := true, previousMissionId := some "m", storeNotes := [sampleNote] }

def c1wData : FetchData := { notes := [sampleNote], total := some 2, has_more := none }

/-- Witness for the amended C1 at a concrete processed load-more response. -/
theorem hasMoreNotes_update_semantics_witness :
    (loadMoreNotes c1wState c1wData).1.hasMoreNotes = false ↔
      (loadMoreNotes c1wState c1wData).1.totalNotesCount
        ≤ (loadMoreNotes c1wState c1wData).1.notes.length :=
  (hasMoreNotes_update_semantics c1wState c1wData true).1 (by decide) rfl

/-- C3 (amended): loadMoreNotes is a no-op (state unchanged, no request)
while its busy flag isLoadingMore is set; loadAllNotes is a no-op when
hasMoreNotes is false; but loadAllNotes has no busy-flag guard: whenever
hasMoreNotes is true it issues a request, whatever isLoading is. -/
theorem loadMore_loadAll_guards (s : NotesState) (d : FetchData) :
    (s.isLoadingMore = true → loadMoreNotes s d = (s, false))
  ∧ (s.hasMoreNotes = false → loadAllNotes s d = (s, false))
  ∧ (s.hasMoreNotes = true → (loadAllNotes s d).2 = true) := by
  refine ⟨fun h => ?_, fun h => ?_, fun h => ?_⟩ <;>
    simp [loadMoreNotes, loadAllNotes, h]

def c3State : NotesState :=
  { missionId := "m", notes := [], totalNotesCount := 0, hasMoreNotes := true,
    isLoading := true, isLoadingMore := false, newNotesCount := 0,
    initialLoadDone := true, previousMissionId := some "m", storeNotes := [] }

def c3Data : FetchData := { notes := [sampleNote], total := some 1, has_more := some false }

/-- C3 counterexample: with the isLoading busy flag set (a load-all fetch in
flight) and hasMoreNotes true, invoking loadAllNotes is not a no-op: it
issues a request and changes the component state. -/
theorem loadAllNotes_busy_counterexample :
    c3State.isLoading = true
  ∧ (loadAllNotes c3State c3Data).2 = true
  ∧ (loadAllNotes c3State c3Data).1 ≠ c3State := by decide

def c3wMoreState : NotesState :=
  { missionId := "m", notes := [], totalNotesCount := 0, hasMoreNotes := true,
    isLoading := false, isLoadingMore := true, newNotesCount := 0,
    initialLoadDone := true, previousMissionId := some "m", storeNotes := [] }

def c3wAllState : NotesState :=
  { missionId := "m", notes := [], totalNotesCount := 0, hasMoreNotes := false,
    isLoading := false, isLoadingMore := false, newNotesCount := 0,
    initialLoadDone := true, previousMissionId := some "m", storeNotes := [] }

/-- Witness for the amended C3 at concrete guarded states. -/
theorem loadMore_loadAll_guards_witness :
    loadMoreNotes c3wMoreState c3Data = (c3wMoreState, false)
  ∧ loadAllNotes c3wAllState c3Data = (c3wAllState, false) :=
  ⟨(loadMore_loadAll_guards c3wMoreState c3Data).1 rfl,
   (loadMore_loadAll_guards c3wAllState c3Data).2.1 rfl⟩

/-- C4: during a store reconciliation for the currently viewed mission after
the initial load, growth of the store note list below 5 emits no toast, and
growth of 5 or more emits exactly the one New Research Notes toast. -/
theorem storeSync_toast_threshold (s : NotesState) (m : Mission) (storeNotes : List Note)
    (hnotes : m.notes = some storeNotes) (hid : m.id = s.missionId)
    (hdone : s.initialLoadDone = true) (hprev : s.previousMissionId = some s.missionId) :
    (storeNotes.length < s.notes.length + 5 → (storeSyncEffect s (some m)).2 = [])
  ∧ (s.notes.length + 5 ≤ storeNotes.length →
      (storeSyncEffect s (some m)).2
        = [newNotesToast (storeNotes.length - s.notes.length)]) := by
  obtain ⟨mid, mnotes⟩ := m
  simp only at hnotes hid
  subst hnotes
  subst hid
  constructor
  · intro hlen
    simp only [storeSyncEffect]
    rw [if_pos ⟨trivial, hdone⟩, if_pos hprev]
    split
    · rw [if_neg (by omega)]
    · rfl
  · intro hlen
    simp only [storeSyncEffect]
    rw [if_pos ⟨trivial, hdone⟩, if_pos hprev,
      if_pos (Or.inl (by omega : storeNotes.length ≠ s.notes.length)),
      if_pos (by omega : storeNotes.length - s.notes.length ≥ 5)]

def c4State : NotesState :=
  { missionId := "m", notes := [], totalNotesCount := 0, hasMoreNotes := false,
    isLoading := false, isLoadingMore := false, newNotesCount := 0,
    initialLoadDone := true, previousMissionId := some "m", storeNotes := [] }

def c4Mission : Mission := { id := "m", notes := some (List.replicate 5 sampleNote) }

def c4MissionSmall : Mission := { id := "m", notes := some [sampleNote] }

/-- Witness for C4 at concrete reconciliations: growth 5 emits exactly one
toast, growth 1 emits none. -/
theorem storeSync_toast_threshold_witness :
    (storeSyncEffect c4State (some c4Mission)).2 = [newNotesToast 5]
  ∧ (storeSyncEffect c4State (some c4MissionSmall)).2 = [] :=
  ⟨(storeSync_toast_threshold c4State c4Mission (List.replicate 5 sampleNote)
      rfl rfl rfl rfl).2 (by decide),
   (storeSync_toast_threshold c4State c4MissionSmall [sampleNote]
      rfl rfl rfl rfl).1 (by decide)⟩

/-- Default search settings used in concrete witnesses. -/
def sampleSettings : SearchSettings :=
  { useWebSearch := false, deepSearch := false, maxIterations := 1, maxQueries := 3,
    deepSearchIterations := 3, deepSearchQueries := 5 }

/-- C7 (amended): a failed notes fetch performs no state update in its catch
handler: notes, total count and has-more flag keep the values they had when
the request was issued (for the initial load after a mission switch the
synchronous reset has already cleared the list before the request, so the
hypothesis fixes the same-mission case); failed message send, regenerate and
delete each surface exactly their dismissable error toast. -/
theorem error_handling_amended (s : NotesState) (st : ChatState)
    (gid : Option String) (ss : SearchSettings) (msgId : String) :
    ((loadMoreNotesErr s).1.notes = s.notes
      ∧ (loadMoreNotesErr s).1.totalNotesCount = s.totalNotesCount
      ∧ (loadMoreNotesErr s).1.hasMoreNotes = s.hasMoreNotes)
  ∧ ((loadAllNotesErr s).1.notes = s.notes
      ∧ (loadAllNotesErr s).1.totalNotesCount = s.totalNotesCount
      ∧ (loadAllNotesErr s).1.hasMoreNotes = s.hasMoreNotes)
  ∧ (s.previousMissionId = some s.missionId →
      (loadInitialNotesErr s).1.notes = s.notes
      ∧ (loadInitialNotesErr s).1.totalNotesCount = s.totalNotesCount
      ∧ (loadInitialNotesErr s).1.hasMoreNotes = s.hasMoreNotes)
  ∧ ((jsTrim st.message).isEmpty = false → st.isLoading = false →
      (handleSendMessage st gid ss false).2.2 = [sendErrorToast])
  ∧ (handleRegenerate msgId gid ss false).2 = [regenerateErrorToast]
  ∧ handleDeleteMessage msgId false = [deleteErrorToast] := by
  refine ⟨?_, ?_, fun hprev => ?_, fun h1 h2 => ?_, rfl, rfl⟩
  · unfold loadMoreNotesErr
    split <;> simp
  · unfold loadAllNotesErr
    split <;> simp
  · unfold loadInitialNotesErr resetIfMissionChanged
    rw [hprev]
    split
    · rename_i h
      exact absurd rfl h
    · dsimp only
      by_cases hd : s.initialLoadDone = true <;> simp [hd]
  · simp [handleSendMessage, h1, h2]

def c7State : NotesState :=
  { missionId := "b", notes := [sampleNote], totalNotesCount := 1, hasMoreNotes := false,
    isLoading := false, isLoadingMore := false, newNotesCount := 0,
    initialLoadDone := true, previousMissionId := some "a", storeNotes := [sampleNote] }

/-- C7 counterexample: an initial-load fetch issued right after a mission
switch, when it fails, does not leave the displayed notes list intact: the
synchronous reset has already cleared it, so the list differs from its value
before the invocation. -/
theorem initialLoad_error_counterexample :
    (loadInitialNotesErr c7State).2 = true
  ∧ (loadInitialNotesErr c7State).1.notes ≠ c7State.notes := by decide

def c7wState : NotesState :=
  { missionId := "m", notes := [sampleNote], totalNotesCount := 1, hasMoreNotes := true,
    isLoading := false, isLoadingMore := false, newNotesCount := 0,
    initialLoadDone := false, previousMissionId := some "m", storeNotes := [sampleNote] }

def c7wChat : ChatState := { message := "hi", isLoading := false }

/-- Witness for the amended C7 at a concrete same-mission failed initial load
and a concrete failed message send. -/
theorem error_handling_amended_witness :
    (loadInitialNotesErr c7wState).1.notes = c7wState.notes
  ∧ (handleSendMessage c7wChat none sampleSettings false).2.2 = [sendErrorToast] :=
  ⟨((error_handling_amended c7wState c7wChat none sampleSettings "x").2.2.1 rfl).1,
   (error_handling_amended c7wState c7wChat none sampleSettings "x").2.2.2.1
     (by decide) rfl⟩

/-- C8: both message send and regenerate pass the deep-search iteration and
query limits as maxIterations and maxQueries when deepSearch is on, and the
normal limits when it is off. -/
theorem deepSearch_limit_substitution (st : ChatState) (gid : Option String)
    (ss : SearchSettings) (ok : Bool) (msgId txt : String) (opts : ChatOptions) :
    ((handleSendMessage st gid ss ok).2.1 = some (txt, opts) →
      opts.maxIterations = (if ss.deepSearch then ss.deepSearchIterations else ss.maxIterations)
      ∧ opts.maxQueries = (if ss.deepSearch then ss.deepSearchQueries else ss.maxQueries))
  ∧ ((handleRegenerate msgId gid ss ok).1.2.maxIterations
        = (if ss.deepSearch then ss.deepSearchIterations else ss.maxIterations)
      ∧ (handleRegenerate msgId gid ss ok).1.2.maxQueries
        = (if ss.deepSearch then ss.deepSearchQueries else ss.maxQueries)) := by
  constructor
  · intro h
    by_cases g : ((jsTrim st.message).isEmpty || st.isLoading) = true
    · simp [handleSendMessage, g] at h
    · simp only [handleSendMessage, g, Bool.false_eq_true, ite_false] at h
      simp only [Option.some.injEq, Prod.mk.injEq] at h
      obtain ⟨-, h2⟩ := h
      subst h2
      constructor <;> rfl
  · constructor <;> rfl

def c8Settings : SearchSettings :=
  { useWebSearch := true, deepSearch := true, maxIterations := 1, maxQueries := 3,
    deepSearchIterations := 7, deepSearchQueries := 9 }

def c8Chat : ChatState := { message := "hello", isLoading := false }

def c8Opts : ChatOptions :=
  { documentGroupId := none, useWebSearch := true, deepSearch := true,
    maxIterations := 7, maxQueries := 9 }

/-- Witness for C8 at a concrete deep-search send. -/
theorem deepSearch_limit_substitution_witness :
    c8Opts.maxIterations
      = (if c8Settings.deepSearch then c8Settings.deepSearchIterations else c8Settings.maxIterations)
  ∧ c8Opts.maxQueries
      = (if c8Settings.deepSearch then c8Settings.deepSearchQueries else c8Settings.maxQueries) :=
  (deepSearch_limit_substitution c8Chat none c8Settings true "mid" "hello" c8Opts).1
    (by decide)

/-- C9: submitting a blank (empty or all-whitespace) message, or submitting
while loading, is a no-op that sends nothing and emits nothing; a real send
transmits the trimmed input and clears the input field. -/
theorem sendMessage_guard_trim_clear (st : ChatState) (gid : Option String)
    (ss : SearchSettings) (ok : Bool) :
    ((jsTrim st.message).isEmpty = true → handleSendMessage st gid ss ok = (st, none, []))
  ∧ (st.isLoading = true → handleSendMessage st gid ss ok = (st, none, []))
  ∧ ((jsTrim st.message).isEmpty = false → st.isLoading = false →
      (handleSendMessage st gid ss ok).1.message = ""
      ∧ ∃ opts : ChatOptions,
          (handleSendMessage st gid ss ok).2.1 = some (jsTrim st.message, opts)) := by
  refine ⟨fun h => ?_, fun h => ?_, fun h1 h2 => ?_⟩
  · simp [handleSendMessage, h]
  · simp [handleSendMessage, h]
  · have hg : ¬(((jsTrim st.message).isEmpty || st.isLoading) = true) := by
      simp [h1, h2]
    unfold handleSendMessage
    rw [if_neg hg]
    exact ⟨rfl, _, rfl⟩

def c9Blank : ChatState := { message := "   ", isLoading := false }

def c9Input : ChatState := { message := " hi ", isLoading := false }

/-- Witness for C9 at a concrete blank submission and a concrete real send. -/
theorem sendMessage_guard_trim_clear_witness :
    handleSendMessage c9Blank none sampleSettings true = (c9Blank, none, [])
  ∧ (handleSendMessage c9Input none sampleSettings true).1.message = "" :=
  ⟨(sendMessage_guard_trim_clear c9Blank none sampleSettings true).1 (by decide),
   ((sendMessage_guard_trim_clear c9Input none sampleSettings true).2.2 (by decide) rfl).1⟩

end Maestro
